import Mathlib

/-!
Shallow embedding of the request/response marshaling layer of the
`geoserver-py` client library (a thin gateway over the GeoServer REST API),
together with a state-machine model of the remote GeoServer catalog that the
gateway talks to.

The repository ships the implementation as a single `geoserver` Python
package whose public surface is documented in `docs/index.md` and exercised
by the notebooks; the marshaling behaviour (body encoding, format
negotiation, status literals, typed errors, the `exists` convenience) is
modelled here following the specification's description of the gateway,
cross-checked against the concrete inputs/outputs recorded in the notebooks.
-/

namespace GeoServerPy

/-- HTTP verbs used by the gateway. -/
inductive Verb
  | get
  | post
  | put
  | delete
deriving DecidableEq, Repr

/-- Response/request format visible to callers: `"json"` (default) or `"xml"`. -/
inductive Format
  | json
  | xml
deriving DecidableEq, Repr

/-- A JSON value: nested mapping of string keys to scalars/mappings/sequences. -/
inductive JsonVal
  | str (s : String)
  | num (n : Int)
  | boolean (b : Bool)
  | obj (fields : List (String × JsonVal))
  | arr (items : List JsonVal)
deriving Repr

mutual

/-- Serialize a JSON value to its wire text. -/
def serializeJson : JsonVal → String
  | .str s => "\"" ++ s ++ "\""
  | .num n => toString n
  | .boolean b => if b then "true" else "false"
  | .obj fields => "\x7b" ++ serializeFields fields ++ "\x7d"
  | .arr items => "[" ++ serializeItems items ++ "]"

/-- Serialize the fields of a JSON object. -/
def serializeFields : List (String × JsonVal) → String
  | [] => ""
  | (k, v) :: rest =>
      "\"" ++ k ++ "\": " ++ serializeJson v ++
        (if rest.isEmpty then "" else ", ") ++ serializeFields rest

/-- Serialize the items of a JSON array. -/
def serializeItems : List JsonVal → String
  | [] => ""
  | v :: rest =>
      serializeJson v ++ (if rest.isEmpty then "" else ", ") ++ serializeItems rest

end

/-- Request body accepted by every write operation: either a native mapping
(encoded to JSON) or a literal string (assumed pre-formatted XML).
The caller chooses; the library does not convert between the two. -/
inductive Body
  | json (m : JsonVal)
  | xml (s : String)

/-- Content types the gateway attaches to requests. -/
inductive ContentType
  | applicationJson
  | applicationXml
  | applicationZip
  | imageGeotiff
  | sldStyle
deriving DecidableEq, Repr

/-- Modelled from the spec: "body is serialized as JSON if given as a mapping,
sent verbatim if given as a string with an XML content type header"
(the implementation of the `geoserver` package is not in the repository
snapshot; only its docs and notebook callers are). -/
def encodeBody : Body → String × ContentType
  | .json m => (serializeJson m, .applicationJson)
  | .xml s => (s, .applicationXml)

/-- The target format of an `upload` operation, which determines the
`Content-Type` of the raw file body. -/
inductive UploadFormat
  | shapefile
  | geotiff
  | sld
deriving DecidableEq, Repr

/-- Modelled from the spec: "raw file content streamed as the request body with
a `Content-Type` set according to the target data format (e.g.,
`application/zip` for a shapefile archive, a GeoTIFF media type, or
`application/vnd.ogc.sld+xml` for a style)". -/
def contentTypeOfUpload : UploadFormat → ContentType
  | .shapefile => .applicationZip
  | .geotiff => .imageGeotiff
  | .sld => .sldStyle

/-- The `Accept` header value selected by the caller-visible `format`. -/
def acceptOf : Format → String
  | .json => "application/json"
  | .xml => "application/xml"

/-- A response payload as it reaches the decoder: either JSON data or text
(XML or plain-text acknowledgement). -/
inductive Payload
  | jsonBody (v : JsonVal)
  | textBody (s : String)

/-- The raw text of a payload, used as the server message of a typed error. -/
def Payload.raw : Payload → String
  | .jsonBody v => serializeJson v
  | .textBody s => s

/-- Kinds of transport-level failure (no HTTP status exists for these). -/
inductive TransportFailure
  | connectionError
  | timeout
  | malformedResponse
deriving DecidableEq, Repr

/-- What the wire hands back to the gateway for a single dispatched request:
an HTTP response (status + payload) or a transport failure. -/
inductive TransportResult
  | response (status : Nat) (body : Payload)
  | failure (kind : TransportFailure) (message : String)

/-- The typed exception raised by the gateway: an HTTP-status error carrying
the status code and raw server message (`GeoServerError` in the docs), or a
transport error, distinct from HTTP-status errors. -/
inductive GeoServerError
  | http (statusCode : Nat) (message : String)
  | transport (kind : TransportFailure) (message : String)

/-- Whether an HTTP status code is a success (2xx) status. -/
def is2xx (status : Nat) : Bool :=
  200 ≤ status && status < 300

/-- Modelled from the spec: "every non-2xx response or transport failure
becomes a typed exception carrying the status code (if any) and the raw
server message"; the gateway performs no local recovery. -/
def checkResponse : TransportResult → Except GeoServerError (Nat × Payload)
  | .response status body =>
      if is2xx status then .ok (status, body) else .error (.http status body.raw)
  | .failure kind message => .error (.transport kind message)

/-- A caller-facing value returned by an operation. -/
inductive Outcome
  | mapping (m : JsonVal)
  | text (s : String)
  | statusLiteral (s : String)

/-- Modelled from the spec: the `format` parameter selects the decoding
strategy for the response body — a mapping when `"json"`, the literal string
when `"xml"`; a payload that does not match the negotiated format is a
malformed response, surfaced as a transport error. -/
def decodeRead (fmt : Format) : Payload → Except GeoServerError Outcome
  | .jsonBody v =>
      match fmt with
      | .json => .ok (.mapping v)
      | .xml => .error (.transport .malformedResponse (serializeJson v))
  | .textBody s =>
      match fmt with
      | .json => .error (.transport .malformedResponse s)
      | .xml => .ok (.text s)

/-- Modelled from the spec: `exists` "performs a `get` and maps NotFound to
`false`, any 2xx to `true`; propagates any other error". -/
def existsOf (r : TransportResult) : Except GeoServerError Bool :=
  match checkResponse r with
  | .ok _ => .ok true
  | .error e =>
      match e with
      | .http code msg => if code = 404 then .ok false else .error (.http code msg)
      | .transport k msg => .error (.transport k msg)

/-- The logical content of a read response, independent of wire format:
either a collection of named resources or a single item with string fields.
The remote server renders the same logical content as JSON or as XML
according to the negotiated `Accept` header. -/
inductive Logical
  | collection (names : List String)
  | item (fields : List (String × String))
deriving DecidableEq, Repr

/-- Modelled from the spec and the notebook outputs: GeoServer's JSON
rendering of logical content. An empty collection renders as the collection
key mapped to the empty string (e.g. `{"workspaces": ""}`), a non-empty one
nests the item key over an array of named entries, and a single item nests
its fields under the item key. -/
def renderJson (key itemKey : String) : Logical → JsonVal
  | .collection [] => .obj [(key, .str "")]
  | .collection (n :: ns) =>
      .obj [(key, .obj [(itemKey,
        .arr ((n :: ns).map fun name => .obj [("name", .str name)]))])]
  | .item fields => .obj [(itemKey, .obj (fields.map fun kv => (kv.1, .str kv.2)))]

/-- An XML document tree: an element with children, or character data. -/
inductive XmlTree
  | elem (tag : String) (children : List XmlTree)
  | textNode (s : String)

mutual

/-- Serialize an XML tree; a childless element renders self-closing. -/
def XmlTree.render : XmlTree → String
  | .elem tag [] => "<" ++ tag ++ "/>"
  | .elem tag (c :: cs) =>
      "<" ++ tag ++ ">" ++ XmlTree.renderList (c :: cs) ++ "</" ++ tag ++ ">"
  | .textNode s => s

/-- Serialize a list of XML trees in order. -/
def XmlTree.renderList : List XmlTree → String
  | [] => ""
  | t :: rest => XmlTree.render t ++ XmlTree.renderList rest

end

/-- A string is well-formed XML when it is the serialization of some
XML document tree. -/
def wellFormedXml (s : String) : Prop :=
  ∃ t : XmlTree, XmlTree.render t = s

/-- Modelled from the spec and the notebook outputs: GeoServer's XML
rendering of logical content (e.g. `<workspaces/>` for an empty collection,
`<layers><layer><name>n</name></layer></layers>` for a non-empty one). -/
def xmlOfLogical (key itemKey : String) : Logical → XmlTree
  | .collection names =>
      .elem key (names.map fun n => .elem itemKey [.elem "name" [.textNode n]])
  | .item fields =>
      .elem itemKey (fields.map fun kv => .elem kv.1 [.textNode kv.2])

/-- Map a fallible function over a list, failing if any element fails. -/
def optList {α β : Type} (f : α → Option β) : List α → Option (List β)
  | [] => some []
  | a :: rest =>
      match f a, optList f rest with
      | some b, some bs => some (b :: bs)
      | _, _ => none

/-- Recover the name of one collection entry from its JSON rendering. -/
def nameOfJsonItem : JsonVal → Option String
  | .obj [(k, .str n)] => if k = "name" then some n else none
  | _ => none

/-- Recover one item field from its JSON rendering. -/
def fieldOfJson : String × JsonVal → Option (String × String)
  | (k, .str v) => some (k, v)
  | _ => none

/-- Partial inverse of `renderJson`: the logical content carried by a JSON
response body, if any, decided by the outer wrapping key. -/
def logicalOfJson (key itemKey : String) (v : JsonVal) : Option Logical :=
  match v with
  | .obj [(k, inner)] =>
      if k = key then
        match inner with
        | .str v0 => if v0 = "" then some (.collection []) else none
        | .obj [(k2, .arr items)] =>
            if k2 = itemKey then (optList nameOfJsonItem items).map .collection
            else none
        | _ => none
      else if k = itemKey then
        match inner with
        | .obj fields => (optList fieldOfJson fields).map .item
        | _ => none
      else none
  | _ => none

/-- Recover the name of one collection entry from its XML rendering. -/
def nameOfXmlItem (itemKey : String) : XmlTree → Option String
  | .elem k [.elem k2 [.textNode n]] =>
      if k = itemKey ∧ k2 = "name" then some n else none
  | _ => none

/-- Recover one item field from its XML rendering. -/
def fieldOfXml : XmlTree → Option (String × String)
  | .elem k [.textNode v] => some (k, v)
  | _ => none

/-- Partial inverse of `xmlOfLogical`: the logical content carried by an XML
response document, if any. -/
def logicalOfXmlTree (key itemKey : String) : XmlTree → Option Logical
  | .elem t children =>
      if t = key then (optList (nameOfXmlItem itemKey) children).map .collection
      else if t = itemKey then (optList fieldOfXml children).map .item
      else none
  | .textNode _ => none

/-- The payload a conforming server returns for logical content `L` when the
request negotiated format `fmt` for a resource with the given collection and
item keys. -/
def payloadFor (fmt : Format) (key itemKey : String) (l : Logical) : Payload :=
  match fmt with
  | .json => .jsonBody (renderJson key itemKey l)
  | .xml => .textBody (XmlTree.render (xmlOfLogical key itemKey l))

/-- The categories of GeoServer object addressed by the client. -/
inductive ResourceKind
  | workspace
  | dataStore
  | coverageStore
  | layer
  | layerGroup
  | style
  | securityRule
deriving DecidableEq, Repr

/-- The URL path segment of a resource kind's collection. -/
def pathSegment : ResourceKind → String
  | .workspace => "workspaces"
  | .dataStore => "datastores"
  | .coverageStore => "coveragestores"
  | .layer => "layers"
  | .layerGroup => "layergroups"
  | .style => "styles"
  | .securityRule => "security/acl/layers"

/-- The JSON/XML key wrapping a collection of this kind (e.g. `workspaces`). -/
def collectionKeyOf : ResourceKind → String
  | .workspace => "workspaces"
  | .dataStore => "dataStores"
  | .coverageStore => "coverageStores"
  | .layer => "layers"
  | .layerGroup => "layerGroups"
  | .style => "styles"
  | .securityRule => "rules"

/-- The JSON/XML key wrapping a single item of this kind (e.g. `workspace`). -/
def itemKeyOf : ResourceKind → String
  | .workspace => "workspace"
  | .dataStore => "dataStore"
  | .coverageStore => "coverageStore"
  | .layer => "layer"
  | .layerGroup => "layerGroup"
  | .style => "style"
  | .securityRule => "rule"

/-- The collection URL path: base REST prefix, then the scope parameters
(pre-rendered path segments such as `workspaces`, `demo`) in their fixed
order, then the collection segment. -/
def collectionPath (kind : ResourceKind) (scope : List String) : String :=
  "/rest" ++ String.join (scope.map fun s => "/" ++ s) ++ "/" ++ pathSegment kind

/-- The item URL path: the collection path plus the resource id. -/
def itemPath (kind : ResourceKind) (id : String) (scope : List String) : String :=
  collectionPath kind scope ++ "/" ++ id

/-- The client session: base URL, credentials and transport options, fixed at
client construction. -/
structure Session where
  baseUrl : String
  username : String
  password : String
  timeout : Option Nat
deriving DecidableEq, Repr

/-- The `GeoServer` client object; its only state is the session
configuration supplied at construction. -/
structure Client where
  session : Session
deriving DecidableEq, Repr

/-- A fully built HTTP request as handed to the transport. -/
structure Request where
  verb : Verb
  url : String
  query : List (String × String)
  accept : Option String
  contentType : Option ContentType
  payload : Option String
  auth : String × String
deriving DecidableEq, Repr

/-- The base name of an uploaded file: the last path component with its
extension removed (the default store name for uploads). -/
def fileStem (path : String) : String :=
  let revBase := List.takeWhile (fun ch => ch ≠ '/') path.toList.reverse
  let revStem :=
    if '.' ∈ revBase then (revBase.dropWhile (fun ch => ch ≠ '.')).drop 1
    else revBase
  String.mk revStem.reverse

/-- A logical gateway operation, the uniform contract shared by every
resource kind: list/get reads, create/update/delete writes, and raw file
uploads. -/
inductive Operation
  | list (kind : ResourceKind) (scope : List String) (fmt : Format)
  | get (kind : ResourceKind) (id : String) (scope : List String) (fmt : Format)
  | create (kind : ResourceKind) (body : Body) (scope : List String)
  | update (kind : ResourceKind) (id : String) (body : Body) (scope : List String)
  | delete (kind : ResourceKind) (id : String) (scope : List String) (recurse : Bool)
  | upload (kind : ResourceKind) (fileName : String) (fileContent : String)
      (store : Option String) (scope : List String) (target : UploadFormat)

/-- Modelled from the spec: request construction. Reads carry an `Accept`
header from `format`; writes carry the body with the content type dictated
by the body's own encoding; deletes carry the `recurse` flag as a query
parameter; uploads carry the raw file content with a content type derived
from the target format, addressed to the store named explicitly or, by
default, after the file. Every request carries the session credentials. -/
def requestOf (op : Operation) (c : Client) : Request :=
  match op with
  | .list kind scope fmt =>
      { verb := .get, url := c.session.baseUrl ++ collectionPath kind scope,
        query := [], accept := some (acceptOf fmt), contentType := none,
        payload := none, auth := (c.session.username, c.session.password) }
  | .get kind id scope fmt =>
      { verb := .get, url := c.session.baseUrl ++ itemPath kind id scope,
        query := [], accept := some (acceptOf fmt), contentType := none,
        payload := none, auth := (c.session.username, c.session.password) }
  | .create kind b scope =>
      { verb := .post, url := c.session.baseUrl ++ collectionPath kind scope,
        query := [], accept := none, contentType := some (encodeBody b).2,
        payload := some (encodeBody b).1,
        auth := (c.session.username, c.session.password) }
  | .update kind id b scope =>
      { verb := .put, url := c.session.baseUrl ++ itemPath kind id scope,
        query := [], accept := none, contentType := some (encodeBody b).2,
        payload := some (encodeBody b).1,
        auth := (c.session.username, c.session.password) }
  | .delete kind id scope recurse =>
      { verb := .delete, url := c.session.baseUrl ++ itemPath kind id scope,
        query := if recurse then [("recurse", "true")] else [],
        accept := none, contentType := none, payload := none,
        auth := (c.session.username, c.session.password) }
  | .upload kind fileName fileContent store scope target =>
      { verb := .put,
        url := c.session.baseUrl ++
          itemPath kind (store.getD (fileStem fileName)) scope ++ "/file",
        query := [], accept := none,
        contentType := some (contentTypeOfUpload target),
        payload := some fileContent,
        auth := (c.session.username, c.session.password) }

/-- Decode the transport result of an operation into the caller-facing
value: reads decode the payload according to the negotiated format; writes
map any success status to the operation's short status literal, ignoring the
response body. -/
def decodeOp (op : Operation) (r : TransportResult) : Except GeoServerError Outcome :=
  match op with
  | .list _ _ fmt => checkResponse r >>= fun sp => decodeRead fmt sp.2
  | .get _ _ _ fmt => checkResponse r >>= fun sp => decodeRead fmt sp.2
  | .create _ _ _ => (checkResponse r).map fun _ => .statusLiteral "Created"
  | .update _ _ _ _ => (checkResponse r).map fun _ => .statusLiteral "Updated"
  | .delete _ _ _ _ => (checkResponse r).map fun _ => .statusLiteral "Deleted"
  | .upload _ _ _ _ _ _ => (checkResponse r).map fun _ => .statusLiteral "Created"

/-- The transport: dispatches one built request and yields its wire result. -/
def Transport : Type :=
  Request → TransportResult

/-- The observable trace of one gateway call: the caller-facing result and
the requests actually dispatched to the transport. -/
structure CallTrace (α : Type) where
  result : Except GeoServerError α
  requests : List Request

/-- Modelled from the spec: run one gateway operation. Each branch builds
its request, dispatches it to the transport exactly once, decodes the wire
result, and leaves the client untouched. -/
def run (op : Operation) (c : Client) (t : Transport) : Client × CallTrace Outcome :=
  match op with
  | .list kind scope fmt =>
      let req := requestOf (.list kind scope fmt) c
      (c, { result := decodeOp (.list kind scope fmt) (t req), requests := [req] })
  | .get kind id scope fmt =>
      let req := requestOf (.get kind id scope fmt) c
      (c, { result := decodeOp (.get kind id scope fmt) (t req), requests := [req] })
  | .create kind b scope =>
      let req := requestOf (.create kind b scope) c
      (c, { result := decodeOp (.create kind b scope) (t req), requests := [req] })
  | .update kind id b scope =>
      let req := requestOf (.update kind id b scope) c
      (c, { result := decodeOp (.update kind id b scope) (t req), requests := [req] })
  | .delete kind id scope recurse =>
      let req := requestOf (.delete kind id scope recurse) c
      (c, { result := decodeOp (.delete kind id scope recurse) (t req),
            requests := [req] })
  | .upload kind fileName fileContent store scope target =>
      let req := requestOf (.upload kind fileName fileContent store scope target) c
      (c, { result := decodeOp (.upload kind fileName fileContent store scope target)
              (t req),
            requests := [req] })

/-! ## Server-side catalog model

The remote GeoServer is an external collaborator assumed correct; the
following state machine models its observable status-code and payload
conventions (404 for a missing target, a Conflict-style 4xx for a duplicate
create or a non-empty delete without `recurse`, 2xx with a rendered payload
otherwise), so that sequences such as create–exists–delete can be settled. -/

/-- A store (data store or coverage store) held by a workspace, with the
content last uploaded or configured into it. -/
structure Store where
  name : String
  content : String
deriving DecidableEq, Repr

/-- A workspace and its child resources. -/
structure Workspace where
  name : String
  dataStores : List Store
  coverageStores : List Store
deriving DecidableEq, Repr

/-- The server-side catalog: the workspaces it currently holds. -/
structure Catalog where
  workspaces : List Workspace
deriving DecidableEq, Repr

/-- Find a workspace by name. -/
def lookupWorkspace : List Workspace → String → Option Workspace
  | [], _ => none
  | w :: rest, name => if w.name = name then some w else lookupWorkspace rest name

/-- Find a workspace of the catalog by name. -/
def findWorkspace (c : Catalog) (name : String) : Option Workspace :=
  lookupWorkspace c.workspaces name

/-- Find a store by name. -/
def lookupStore : List Store → String → Option Store
  | [], _ => none
  | s :: rest, name => if s.name = name then some s else lookupStore rest name

/-- Insert a store, replacing any existing store of the same name. -/
def upsertStore (name content : String) : List Store → List Store
  | [] => [{ name := name, content := content }]
  | s :: rest =>
      if s.name = name then { name := name, content := content } :: rest
      else s :: upsertStore name content rest

/-- Remove every workspace of the given name. -/
def removeWorkspace : List Workspace → String → List Workspace
  | [], _ => []
  | w :: rest, name =>
      if w.name = name then removeWorkspace rest name
      else w :: removeWorkspace rest name

/-- Replace the workspace of the same name. -/
def setWorkspace : List Workspace → Workspace → List Workspace
  | [], _ => []
  | x :: rest, w => if x.name = w.name then w :: rest else x :: setWorkspace rest w

/-- The names of the catalog's workspaces, in order. -/
def workspaceNames (c : Catalog) : List String :=
  c.workspaces.map Workspace.name

/-- Server semantics of `GET /workspaces/{name}`: 404 when absent, 200 with
the item rendered in the negotiated format when present. -/
def srvGetWorkspace (c : Catalog) (fmt : Format) (name : String) : TransportResult :=
  match findWorkspace c name with
  | some w =>
      .response 200 (payloadFor fmt "workspaces" "workspace" (.item [("name", w.name)]))
  | none => .response 404 (.textBody ("No such workspace: " ++ name))

/-- Server semantics of `GET /workspaces`: 200 with the collection of
workspace names rendered in the negotiated format. -/
def srvGetWorkspaces (c : Catalog) (fmt : Format) : TransportResult :=
  .response 200 (payloadFor fmt "workspaces" "workspace" (.collection (workspaceNames c)))

/-- Server semantics of `POST /workspaces`: Conflict for a duplicate name,
201 otherwise, adding an empty workspace. -/
def srvCreateWorkspace (c : Catalog) (name : String) : Catalog × TransportResult :=
  match findWorkspace c name with
  | some _ =>
      (c, .response 409 (.textBody ("Workspace named '" ++ name ++ "' already exists")))
  | none =>
      ({ workspaces := { name := name, dataStores := [], coverageStores := [] }
           :: c.workspaces },
       .response 201 (.textBody name))

/-- Server semantics of `DELETE /workspaces/{name}`: 404 when absent, a
Conflict-style 4xx when the workspace still has children and `recurse` was
not requested, and 200 removing the workspace (and with it all its
children) otherwise. -/
def srvDeleteWorkspace (c : Catalog) (name : String) (recurse : Bool) :
    Catalog × TransportResult :=
  match findWorkspace c name with
  | none => (c, .response 404 (.textBody ("Workspace '" ++ name ++ "' not found")))
  | some w =>
      if (w.dataStores.isEmpty && w.coverageStores.isEmpty) || recurse then
        ({ workspaces := removeWorkspace c.workspaces name },
         .response 200 (.textBody ""))
      else
        (c, .response 409 (.textBody "Workspace is not empty"))

/-- Server semantics of `GET .../datastores/{store}`: 404 when the workspace
or the store is absent, 200 otherwise. -/
def srvGetDataStore (c : Catalog) (workspace store : String) : TransportResult :=
  match findWorkspace c workspace with
  | none => .response 404 (.textBody ("Workspace '" ++ workspace ++ "' not found"))
  | some w =>
      match lookupStore w.dataStores store with
      | some s =>
          .response 200
            (.jsonBody (renderJson "dataStores" "dataStore" (.item [("name", s.name)])))
      | none => .response 404 (.textBody ("Data store '" ++ store ++ "' not found"))

/-- Server semantics of a data-store file upload (`PUT .../file`): 404 when
the workspace is absent; otherwise 201, creating the store or overwriting an
existing store of the same name. -/
def srvUploadDataStore (c : Catalog) (workspace store content : String) :
    Catalog × TransportResult :=
  match findWorkspace c workspace with
  | none => (c, .response 404 (.textBody ("Workspace '" ++ workspace ++ "' not found")))
  | some w =>
      ({ workspaces := setWorkspace c.workspaces
           { w with dataStores := upsertStore store content w.dataStores } },
       .response 201 (.textBody "Created"))

/-- Server semantics of a coverage-store file upload: as for data stores,
against the workspace's coverage stores. -/
def srvUploadCoverageStore (c : Catalog) (workspace store content : String) :
    Catalog × TransportResult :=
  match findWorkspace c workspace with
  | none => (c, .response 404 (.textBody ("Workspace '" ++ workspace ++ "' not found")))
  | some w =>
      ({ workspaces := setWorkspace c.workspaces
           { w with coverageStores := upsertStore store content w.coverageStores } },
       .response 201 (.textBody "Created"))

/-! ## Catalog-level gateway methods

The client methods of the `geoserver` package, run against the catalog
model: each performs its one request against the server semantics above and
post-processes the wire result exactly as the gateway layer does. -/

/-- `GeoServer.workspace_exists`: performs the `get` and maps NotFound to
`false`, any 2xx to `true`, propagating any other error. -/
def workspace_exists (c : Catalog) (name : String) : Except GeoServerError Bool :=
  existsOf (srvGetWorkspace c .json name)

/-- `GeoServer.get_workspaces`: lists the workspaces in the requested
format. -/
def get_workspaces (c : Catalog) (fmt : Format) : Except GeoServerError Outcome :=
  checkResponse (srvGetWorkspaces c fmt) >>= fun sp => decodeRead fmt sp.2

/-- `GeoServer.create_workspace` (keyed by the name the body carries):
returns `"Created"` on success. -/
def create_workspace (c : Catalog) (name : String) :
    Catalog × Except GeoServerError String :=
  let p := srvCreateWorkspace c name
  (p.1, (checkResponse p.2).map fun _ => "Created")

/-- `GeoServer.delete_workspace`: returns `"Deleted"` on success. -/
def delete_workspace (c : Catalog) (name : String) (recurse : Bool) :
    Catalog × Except GeoServerError String :=
  let p := srvDeleteWorkspace c name recurse
  (p.1, (checkResponse p.2).map fun _ => "Deleted")

/-- `GeoServer.data_store_exists`. -/
def data_store_exists (c : Catalog) (workspace store : String) :
    Except GeoServerError Bool :=
  existsOf (srvGetDataStore c workspace store)

/-- `GeoServer.upload_data_store`: the store name defaults to the uploaded
file's base name; returns `"Created"` on success. -/
def upload_data_store (c : Catalog) (workspace file content : String)
    (store : Option String) : Catalog × Except GeoServerError String :=
  let p := srvUploadDataStore c workspace (store.getD (fileStem file)) content
  (p.1, (checkResponse p.2).map fun _ => "Created")

/-- `GeoServer.upload_coverage_store`: as for data stores. -/
def upload_coverage_store (c : Catalog) (workspace file content : String)
    (store : Option String) : Catalog × Except GeoServerError String :=
  let p := srvUploadCoverageStore c workspace (store.getD (fileStem file)) content
  (p.1, (checkResponse p.2).map fun _ => "Created")

/-- The short status literal of a write operation, fixed by the operation
kind alone: `"Created"` for creates and uploads, `"Updated"` for updates,
`"Deleted"` for deletes; reads have none. -/
def writeLiteralOf : Operation → Option String
  | .create _ _ _ => some "Created"
  | .update _ _ _ _ => some "Updated"
  | .delete _ _ _ _ => some "Deleted"
  | .upload _ _ _ _ _ _ => some "Created"
  | .list _ _ _ => none
  | .get _ _ _ _ => none

/-! ## Helper lemmas -/

theorem run_result_eq (op : Operation) (c : Client) (t : Transport) :
    (run op c t).2.result = decodeOp op (t (requestOf op c)) := by
  cases op <;> rfl

theorem checkResponse_2xx (s : Nat) (p : Payload) (h : is2xx s = true) :
    checkResponse (.response s p) = .ok (s, p) := by
  simp [checkResponse, h]

theorem checkResponse_not2xx (s : Nat) (p : Payload) (h : is2xx s = false) :
    checkResponse (.response s p) = .error (.http s p.raw) := by
  simp [checkResponse, h]

theorem decodeOp_of_error (op : Operation) (r : TransportResult)
    (e : GeoServerError) (h : checkResponse r = .error e) :
    decodeOp op r = .error e := by
  cases op <;> simp only [decodeOp, h] <;> rfl

theorem optList_nameOfJsonItem (names : List String) :
    optList nameOfJsonItem (names.map fun n => JsonVal.obj [("name", .str n)])
      = some names := by
  induction names with
  | nil => rfl
  | cons n ns ih => simp [optList, nameOfJsonItem, ih]

theorem optList_fieldOfJson (fields : List (String × String)) :
    optList fieldOfJson (fields.map fun kv => (kv.1, JsonVal.str kv.2))
      = some fields := by
  induction fields with
  | nil => rfl
  | cons kv rest ih => simp [optList, fieldOfJson, ih]

theorem optList_nameOfXmlItem (ik : String) (names : List String) :
    optList (nameOfXmlItem ik)
      (names.map fun n => XmlTree.elem ik [.elem "name" [.textNode n]])
      = some names := by
  induction names with
  | nil => rfl
  | cons n ns ih => simp [optList, nameOfXmlItem, ih]

theorem optList_fieldOfXml (fields : List (String × String)) :
    optList fieldOfXml (fields.map fun kv => XmlTree.elem kv.1 [.textNode kv.2])
      = some fields := by
  induction fields with
  | nil => rfl
  | cons kv rest ih => simp [optList, fieldOfXml, ih]

/-- `renderJson` is lossless: decoding recovers the logical content. -/
theorem logicalOfJson_renderJson (key ik : String) (hne : key ≠ ik)
    (l : Logical) : logicalOfJson key ik (renderJson key ik l) = some l := by
  cases l with
  | collection names =>
      cases names with
      | nil => simp [renderJson, logicalOfJson]
      | cons n ns =>
          simp only [renderJson, logicalOfJson, eq_self_iff_true, if_true,
            optList_nameOfJsonItem, Option.map_some']
  | item fields =>
      simp [renderJson, logicalOfJson, Ne.symm hne, optList_fieldOfJson]

/-- `xmlOfLogical` is lossless: decoding recovers the logical content. -/
theorem logicalOfXmlTree_xmlOfLogical (key ik : String) (hne : key ≠ ik)
    (l : Logical) :
    logicalOfXmlTree key ik (xmlOfLogical key ik l) = some l := by
  cases l with
  | collection names =>
      simp only [xmlOfLogical, logicalOfXmlTree, eq_self_iff_true, if_true,
        optList_nameOfXmlItem, Option.map_some']
  | item fields =>
      simp [xmlOfLogical, logicalOfXmlTree, Ne.symm hne, optList_fieldOfXml]

/-- Every resource kind's collection key differs from its item key. -/
theorem collectionKey_ne_itemKey (kind : ResourceKind) :
    collectionKeyOf kind ≠ itemKeyOf kind := by
  cases kind <;> decide

theorem lookupWorkspace_remove (ws : List Workspace) (name : String) :
    lookupWorkspace (removeWorkspace ws name) name = none := by
  induction ws with
  | nil => rfl
  | cons w rest ih =>
      by_cases h : w.name = name
      · simp [removeWorkspace, h, ih]
      · simp [removeWorkspace, lookupWorkspace, h, ih]

theorem lookupWorkspace_name (ws : List Workspace) (name : String)
    (w : Workspace) (h : lookupWorkspace ws name = some w) : w.name = name := by
  induction ws with
  | nil => simp [lookupWorkspace] at h
  | cons x rest ih =>
      by_cases hx : x.name = name
      · simp [lookupWorkspace, hx] at h
        rw [← h]
        exact hx
      · simp [lookupWorkspace, hx] at h
        exact ih h

theorem lookupWorkspace_set (ws : List Workspace) (name : String)
    (w w' : Workspace) (h : lookupWorkspace ws name = some w)
    (h' : w'.name = name) :
    lookupWorkspace (setWorkspace ws w') name = some w' := by
  induction ws with
  | nil => simp [lookupWorkspace] at h
  | cons x rest ih =>
      by_cases hx : x.name = name
      · simp [setWorkspace, hx, h', lookupWorkspace]
      · have hx' : ¬ x.name = w'.name := by
          rw [h']
          exact hx
        simp [lookupWorkspace, hx] at h
        simp [setWorkspace, hx', lookupWorkspace, hx]
        exact ih h

theorem lookupStore_upsert (name content : String) (ss : List Store) :
    lookupStore (upsertStore name content ss) name
      = some { name := name, content := content } := by
  induction ss with
  | nil => simp [upsertStore, lookupStore]
  | cons s rest ih =>
      by_cases h : s.name = name
      · simp [upsertStore, h, lookupStore]
      · simp [upsertStore, h, lookupStore, ih]

theorem upsertStore_length (name content : String) (ss : List Store)
    (s0 : Store) (h : lookupStore ss name = some s0) :
    (upsertStore name content ss).length = ss.length := by
  induction ss with
  | nil => simp [lookupStore] at h
  | cons s rest ih =>
      by_cases hs : s.name = name
      · simp [upsertStore, hs]
      · simp [lookupStore, hs] at h
        simp [upsertStore, hs, ih h]

/-- A concrete session, as in the notebooks. -/
def demoSession : Session :=
  { baseUrl := "http://localhost:8080/geoserver", username := "admin",
    password := "geoserver", timeout := none }

/-- A concrete client built on `demoSession`. -/
def demoClient : Client :=
  { session := demoSession }

/-! ## Claim theorems -/

/-- C1: for every write operation (create/update/upload), the encoding of
the request body determines and matches the `Content-Type` header sent — a
mapping body is serialized as JSON with a JSON content type, a string body
is sent verbatim with an XML content type, an upload carries the content
type derived from its target format — and no call ever mixes the two
encodings. -/
theorem write_body_encoding_determines_content_type
    (kind : ResourceKind) (b : Body) (id : String) (scope : List String)
    (c : Client) (fileName fileContent : String) (store : Option String)
    (target : UploadFormat) (m : JsonVal) (s : String) :
    ((requestOf (.create kind b scope) c).contentType = some (encodeBody b).2 ∧
      (requestOf (.create kind b scope) c).payload = some (encodeBody b).1) ∧
    ((requestOf (.update kind id b scope) c).contentType = some (encodeBody b).2 ∧
      (requestOf (.update kind id b scope) c).payload = some (encodeBody b).1) ∧
    encodeBody (.json m) = (serializeJson m, .applicationJson) ∧
    encodeBody (.xml s) = (s, .applicationXml) ∧
    ((∃ m0, b = .json m0 ∧ (encodeBody b).2 = .applicationJson ∧
        (encodeBody b).1 = serializeJson m0) ∨
      (∃ s0, b = .xml s0 ∧ (encodeBody b).2 = .applicationXml ∧
        (encodeBody b).1 = s0)) ∧
    (requestOf (.upload kind fileName fileContent store scope target) c).contentType
      = some (contentTypeOfUpload target) := by
  refine ⟨⟨rfl, rfl⟩, ⟨rfl, rfl⟩, rfl, rfl, ?_, rfl⟩
  cases b with
  | json m0 => exact Or.inl ⟨m0, rfl, rfl, rfl⟩
  | xml s0 => exact Or.inr ⟨s0, rfl, rfl, rfl⟩

/-- C3: every successful create returns the literal `"Created"`, every
successful update `"Updated"`, every successful delete `"Deleted"` (uploads
return `"Created"`); the literal is derived from the operation kind and the
success status code alone, so it is independent of the response body and of
any format consideration. -/
theorem write_status_literal (op : Operation) (c : Client) (t t' : Transport)
    (s : Nat) (p q : Payload) (lit : String)
    (hw : writeLiteralOf op = some lit) (h2 : is2xx s = true)
    (ht : t (requestOf op c) = .response s p)
    (ht' : t' (requestOf op c) = .response s q) :
    (run op c t).2.result = .ok (.statusLiteral lit) ∧
    (run op c t).2.result = (run op c t').2.result := by
  rw [run_result_eq, run_result_eq, ht, ht']
  cases op with
  | list kind scope fmt => simp [writeLiteralOf] at hw
  | get kind id scope fmt => simp [writeLiteralOf] at hw
  | create kind b scope =>
      simp [writeLiteralOf] at hw
      simp [decodeOp, checkResponse_2xx s p h2, checkResponse_2xx s q h2,
        Except.map, hw]
  | update kind id b scope =>
      simp [writeLiteralOf] at hw
      simp [decodeOp, checkResponse_2xx s p h2, checkResponse_2xx s q h2,
        Except.map, hw]
  | delete kind id scope recurse =>
      simp [writeLiteralOf] at hw
      simp [decodeOp, checkResponse_2xx s p h2, checkResponse_2xx s q h2,
        Except.map, hw]
  | upload kind fileName fileContent store scope target =>
      simp [writeLiteralOf] at hw
      simp [decodeOp, checkResponse_2xx s p h2, checkResponse_2xx s q h2,
        Except.map, hw]

/-- C3 witness: a concrete create against a transport answering 201 returns
`"Created"`, and the result agrees with the one from a transport answering
201 with a different body. -/
theorem write_status_literal_witness :
    (run (.create .workspace (.xml "<workspace/>") []) demoClient
        (fun _ => .response 201 (.textBody "a"))).2.result
      = .ok (.statusLiteral "Created") :=
  (write_status_literal (.create .workspace (.xml "<workspace/>") []) demoClient
    (fun _ => .response 201 (.textBody "a"))
    (fun _ => .response 201 (.textBody "b"))
    201 (.textBody "a") (.textBody "b") "Created" rfl (by decide) rfl rfl).1

/-- C4: for every operation, a non-2xx HTTP status becomes the typed
`GeoServerError.http` exception carrying the status code and the raw server
message, a transport failure becomes the typed `GeoServerError.transport`
exception, the gateway performs no local recovery (the error is the call's
result), and the two error forms are distinguishable. -/
theorem error_propagation_typed (op : Operation) (c : Client) (t : Transport)
    (s : Nat) (p : Payload) (k : TransportFailure) (msg : String) :
    (t (requestOf op c) = .response s p → is2xx s = false →
        (run op c t).2.result = .error (.http s p.raw)) ∧
    (t (requestOf op c) = .failure k msg →
        (run op c t).2.result = .error (.transport k msg)) ∧
    (∀ (s' : Nat) (m' : String) (k' : TransportFailure) (m'' : String),
        GeoServerError.http s' m' ≠ GeoServerError.transport k' m'') := by
  refine ⟨?_, ?_, ?_⟩
  · intro ht h2
    rw [run_result_eq, ht]
    exact decodeOp_of_error op _ _ (checkResponse_not2xx s p h2)
  · intro ht
    rw [run_result_eq, ht]
    exact decodeOp_of_error op _ _ rfl
  · intro s' m' k' m'' h
    exact GeoServerError.noConfusion h

/-- C4 witness: a concrete get answered with 500 yields the typed HTTP error
with code 500 and the raw body, and a connection failure yields the typed
transport error. -/
theorem error_propagation_typed_witness :
    (run (.get .workspace "demo" [] .json) demoClient
        (fun _ => .response 500 (.textBody "Internal Server Error"))).2.result
      = .error (.http 500 "Internal Server Error") ∧
    (run (.get .workspace "demo" [] .json) demoClient
        (fun _ => .failure .connectionError "refused")).2.result
      = .error (.transport .connectionError "refused") :=
  ⟨(error_propagation_typed (.get .workspace "demo" [] .json) demoClient
      (fun _ => .response 500 (.textBody "Internal Server Error"))
      500 (.textBody "Internal Server Error") .connectionError "refused").1
    rfl (by decide),
   (error_propagation_typed (.get .workspace "demo" [] .json) demoClient
      (fun _ => .failure .connectionError "refused")
      500 (.textBody "Internal Server Error") .connectionError "refused").2.1
    rfl⟩

/-- C7: no operation ever issues more than one HTTP request — every call
dispatches exactly the one request it built, for every transport behaviour
(in particular a 5xx answer triggers no retry), and holds no cache. -/
theorem single_request_per_call (op : Operation) (c : Client) (t : Transport) :
    (run op c t).2.requests = [requestOf op c] := by
  cases op <;> rfl

/-- C8: every gateway operation leaves the client session state (base URL,
credentials, construction-time configuration) unchanged, and every request
is authenticated with the construction-time credentials. -/
theorem session_state_unchanged (op : Operation) (c : Client) (t : Transport) :
    (run op c t).1 = c ∧
    (requestOf op c).auth = (c.session.username, c.session.password) := by
  constructor
  · cases op <;> rfl
  · cases op <;> rfl

/-- A conforming server for the read witnesses: it answers every request
with the one-workspace collection, rendered according to the request's
`Accept` header. -/
def demoTransport : Transport :=
  fun req =>
    if req.accept = some "application/json" then
      .response 200 (payloadFor .json "workspaces" "workspace" (.collection ["demo"]))
    else
      .response 200 (payloadFor .xml "workspaces" "workspace" (.collection ["demo"]))

/-- C2: for every get/list operation against a server rendering logical
content `l` in the negotiated format, calling with `format="json"` (the
default) returns the mapping decoded from the JSON response, calling with
`format="xml"` returns a string that is well-formed XML, both carry the same
logical content `l` (each rendering decodes back to `l`), and the `format`
parameter selects the `Accept` header of the request. -/
theorem format_negotiation_read (kind : ResourceKind) (scope : List String)
    (id : String) (c : Client) (t : Transport) (l : Logical)
    (hlj : t (requestOf (.list kind scope .json) c)
      = .response 200 (payloadFor .json (collectionKeyOf kind) (itemKeyOf kind) l))
    (hlx : t (requestOf (.list kind scope .xml) c)
      = .response 200 (payloadFor .xml (collectionKeyOf kind) (itemKeyOf kind) l))
    (hgj : t (requestOf (.get kind id scope .json) c)
      = .response 200 (payloadFor .json (collectionKeyOf kind) (itemKeyOf kind) l))
    (hgx : t (requestOf (.get kind id scope .xml) c)
      = .response 200 (payloadFor .xml (collectionKeyOf kind) (itemKeyOf kind) l)) :
    (run (.list kind scope .json) c t).2.result
      = .ok (.mapping (renderJson (collectionKeyOf kind) (itemKeyOf kind) l)) ∧
    (run (.list kind scope .xml) c t).2.result
      = .ok (.text (XmlTree.render (xmlOfLogical (collectionKeyOf kind) (itemKeyOf kind) l))) ∧
    (run (.get kind id scope .json) c t).2.result
      = .ok (.mapping (renderJson (collectionKeyOf kind) (itemKeyOf kind) l)) ∧
    (run (.get kind id scope .xml) c t).2.result
      = .ok (.text (XmlTree.render (xmlOfLogical (collectionKeyOf kind) (itemKeyOf kind) l))) ∧
    wellFormedXml (XmlTree.render (xmlOfLogical (collectionKeyOf kind) (itemKeyOf kind) l)) ∧
    logicalOfJson (collectionKeyOf kind) (itemKeyOf kind)
      (renderJson (collectionKeyOf kind) (itemKeyOf kind) l) = some l ∧
    logicalOfXmlTree (collectionKeyOf kind) (itemKeyOf kind)
      (xmlOfLogical (collectionKeyOf kind) (itemKeyOf kind) l) = some l ∧
    (∀ fmt, (requestOf (.list kind scope fmt) c).accept = some (acceptOf fmt)) ∧
    (∀ fmt, (requestOf (.get kind id scope fmt) c).accept = some (acceptOf fmt)) := by
  refine ⟨?_, ?_, ?_, ?_, ?_, ?_, ?_, ?_, ?_⟩
  · rw [run_result_eq, hlj]; rfl
  · rw [run_result_eq, hlx]; rfl
  · rw [run_result_eq, hgj]; rfl
  · rw [run_result_eq, hgx]; rfl
  · exact ⟨xmlOfLogical (collectionKeyOf kind) (itemKeyOf kind) l, rfl⟩
  · exact logicalOfJson_renderJson _ _ (collectionKey_ne_itemKey kind) l
  · exact logicalOfXmlTree_xmlOfLogical _ _ (collectionKey_ne_itemKey kind) l
  · intro fmt; rfl
  · intro fmt; rfl

/-- C2 witness: listing the one-workspace catalog with `format="json"`
returns the decoded mapping, and with `format="xml"` returns the XML
text, for the concrete conforming transport. -/
theorem format_negotiation_read_witness :
    (run (.list .workspace [] .json) demoClient demoTransport).2.result
      = .ok (.mapping (renderJson "workspaces" "workspace" (.collection ["demo"]))) ∧
    (run (.list .workspace [] .xml) demoClient demoTransport).2.result
      = .ok (.text (XmlTree.render (xmlOfLogical "workspaces" "workspace"
          (.collection ["demo"])))) :=
  ⟨(format_negotiation_read .workspace [] "demo" demoClient demoTransport
      (.collection ["demo"]) rfl rfl rfl rfl).1,
   (format_negotiation_read .workspace [] "demo" demoClient demoTransport
      (.collection ["demo"]) rfl rfl rfl rfl).2.1⟩

/-- The `states` data store of the concrete catalog. -/
def demoStates : Store :=
  { name := "states", content := "states-v1" }

/-- The `raster1` coverage store of the concrete catalog. -/
def demoRaster : Store :=
  { name := "raster1", content := "raster1-v1" }

/-- The `demo` workspace of the concrete catalog, holding one data store and
one coverage store, as set up in the notebooks. -/
def demoWorkspace : Workspace :=
  { name := "demo", dataStores := [demoStates], coverageStores := [demoRaster] }

/-- A concrete catalog holding the `demo` workspace. -/
def demoCatalog : Catalog :=
  { workspaces := [demoWorkspace] }

/-- C5: `exists` performs a get and returns `false` exactly when the server
answers 404, `true` for any 2xx, and propagates any other error as the typed
exception; consequently it returns `false` for an id never created, `true`
immediately after `create`, and `false` immediately after a successful
`delete`. -/
theorem exists_semantics :
    (∀ (s : Nat) (p : Payload), is2xx s = true →
        existsOf (.response s p) = .ok true) ∧
    (∀ p : Payload, existsOf (.response 404 p) = .ok false) ∧
    (∀ (s : Nat) (p : Payload), is2xx s = false → s ≠ 404 →
        existsOf (.response s p) = .error (.http s p.raw)) ∧
    (∀ (k : TransportFailure) (m : String),
        existsOf (.failure k m) = .error (.transport k m)) ∧
    (∀ (c : Catalog) (name : String), findWorkspace c name = none →
        workspace_exists c name = .ok false) ∧
    (∀ (c : Catalog) (name : String),
        workspace_exists (create_workspace c name).1 name = .ok true) ∧
    (∀ (c : Catalog) (name : String) (recurse : Bool) (s : Nat) (p : Payload),
        (srvDeleteWorkspace c name recurse).2 = .response s p → is2xx s = true →
        workspace_exists (srvDeleteWorkspace c name recurse).1 name = .ok false) := by
  refine ⟨?_, ?_, ?_, ?_, ?_, ?_, ?_⟩
  · intro s p h
    simp [existsOf, checkResponse_2xx s p h]
  · intro p
    simp [existsOf, checkResponse_not2xx 404 p (by decide)]
  · intro s p h hne
    simp [existsOf, checkResponse_not2xx s p h, hne]
  · intro k m
    rfl
  · intro c name h
    simp only [workspace_exists, srvGetWorkspace, h]
    rfl
  · intro c name
    cases hfw : findWorkspace c name with
    | none =>
        have hl : findWorkspace
            { workspaces := { name := name, dataStores := [], coverageStores := [] }
                :: c.workspaces } name
            = some { name := name, dataStores := [], coverageStores := [] } := by
          simp [findWorkspace, lookupWorkspace]
        simp only [create_workspace, srvCreateWorkspace, hfw, workspace_exists,
          srvGetWorkspace, hl]
        rfl
    | some w =>
        simp only [create_workspace, srvCreateWorkspace, hfw, workspace_exists,
          srvGetWorkspace, hfw]
        rfl
  · intro c name recurse s p hr h2
    cases hfw : findWorkspace c name with
    | none =>
        simp only [srvDeleteWorkspace, hfw] at hr
        injection hr with hs hp
        rw [← hs] at h2
        exact absurd h2 (by decide)
    | some w =>
        by_cases hc : (w.dataStores.isEmpty && w.coverageStores.isEmpty) || recurse
        · have hnone : findWorkspace { workspaces := removeWorkspace c.workspaces name }
              name = none := lookupWorkspace_remove c.workspaces name
          simp only [srvDeleteWorkspace, hfw, if_pos hc, workspace_exists,
            srvGetWorkspace, hnone]
          rfl
        · simp only [srvDeleteWorkspace, hfw, if_neg hc] at hr
          injection hr with hs hp
          rw [← hs] at h2
          exact absurd h2 (by decide)

/-- C5 witness: in the empty catalog `demo` does not exist; after creating
it it exists; after deleting it it no longer exists. -/
theorem exists_semantics_witness :
    workspace_exists { workspaces := [] } "demo" = .ok false ∧
    workspace_exists (create_workspace { workspaces := [] } "demo").1 "demo"
      = .ok true ∧
    workspace_exists
        (srvDeleteWorkspace (create_workspace { workspaces := [] } "demo").1
          "demo" true).1 "demo"
      = .ok false :=
  ⟨exists_semantics.2.2.2.2.1 { workspaces := [] } "demo" rfl,
   exists_semantics.2.2.2.2.2.1 { workspaces := [] } "demo",
   exists_semantics.2.2.2.2.2.2
     (create_workspace { workspaces := [] } "demo").1 "demo" true
     200 (.textBody "") rfl (by decide)⟩

/-- C6: deleting a workspace that still has children without `recurse=true`
fails with a Conflict-style 4xx typed error (a 4xx other than 404) and
changes nothing, while the identical call with `recurse=true` succeeds with
`"Deleted"`, cascades to the children, and a subsequent `exists` on the
workspace — and on any of its data stores — returns `false`. -/
theorem delete_recurse_semantics (c : Catalog) (name : String) (w : Workspace)
    (hw : findWorkspace c name = some w) (hne : w.dataStores ≠ []) :
    (delete_workspace c name false).2 = .error (.http 409 "Workspace is not empty") ∧
    (delete_workspace c name false).1 = c ∧
    (400 ≤ 409 ∧ 409 < 500 ∧ (409 : Nat) ≠ 404) ∧
    (delete_workspace c name true).2 = .ok "Deleted" ∧
    workspace_exists (delete_workspace c name true).1 name = .ok false ∧
    (∀ store, data_store_exists (delete_workspace c name true).1 name store
      = .ok false) := by
  have hE : w.dataStores.isEmpty = false := by
    cases hdl : w.dataStores with
    | nil => exact absurd hdl hne
    | cons a l => rfl
  have hcondF : ((w.dataStores.isEmpty && w.coverageStores.isEmpty) || false)
      = false := by
    simp [hE]
  have hcondT : ((w.dataStores.isEmpty && w.coverageStores.isEmpty) || true)
      = true := by
    simp
  have hnone : findWorkspace { workspaces := removeWorkspace c.workspaces name }
      name = none := lookupWorkspace_remove c.workspaces name
  have hdelF : delete_workspace c name false
      = (c, .error (.http 409 "Workspace is not empty")) := by
    simp only [delete_workspace, srvDeleteWorkspace, hw, hcondF]
    rfl
  have hdelT : delete_workspace c name true
      = ({ workspaces := removeWorkspace c.workspaces name }, .ok "Deleted") := by
    simp only [delete_workspace, srvDeleteWorkspace, hw, hcondT]
    rfl
  refine ⟨?_, ?_, ⟨by decide, by decide, by decide⟩, ?_, ?_, ?_⟩
  · rw [hdelF]
  · rw [hdelF]
  · rw [hdelT]
  · rw [hdelT]
    simp only [workspace_exists, srvGetWorkspace, hnone]
    rfl
  · intro store
    rw [hdelT]
    simp only [data_store_exists, srvGetDataStore, hnone]
    rfl

/-- C6 witness: on the concrete catalog, deleting the non-empty `demo`
workspace without recurse fails with the 409 typed error; with recurse it
returns `"Deleted"` and the workspace and its `states` data store are gone. -/
theorem delete_recurse_semantics_witness :
    (delete_workspace demoCatalog "demo" false).2
      = .error (.http 409 "Workspace is not empty") ∧
    (delete_workspace demoCatalog "demo" true).2 = .ok "Deleted" ∧
    workspace_exists (delete_workspace demoCatalog "demo" true).1 "demo"
      = .ok false ∧
    data_store_exists (delete_workspace demoCatalog "demo" true).1 "demo" "states"
      = .ok false :=
  ⟨(delete_recurse_semantics demoCatalog "demo"
      demoWorkspace rfl (by decide)).1,
   (delete_recurse_semantics demoCatalog "demo"
      demoWorkspace rfl (by decide)).2.2.2.1,
   (delete_recurse_semantics demoCatalog "demo"
      demoWorkspace rfl (by decide)).2.2.2.2.1,
   (delete_recurse_semantics demoCatalog "demo"
      demoWorkspace rfl (by decide)).2.2.2.2.2 "states"⟩

/-- C9: a list operation on an empty collection returns, with `format`
`"json"`, a mapping whose single collection key maps to the empty string
(`get_workspaces()` gives `{"workspaces": ""}`), and with `format` `"xml"` a
self-closing element string (`<workspaces/>`). -/
theorem empty_collection_rendering (key ik : String) (c : Catalog)
    (hc : c.workspaces = []) :
    renderJson key ik (.collection []) = .obj [(key, .str "")] ∧
    XmlTree.render (xmlOfLogical key ik (.collection [])) = "<" ++ key ++ "/>" ∧
    get_workspaces c .json = .ok (.mapping (.obj [("workspaces", .str "")])) ∧
    get_workspaces c .xml = .ok (.text "<workspaces/>") := by
  refine ⟨rfl, rfl, ?_, ?_⟩
  · simp only [get_workspaces, srvGetWorkspaces, workspaceNames, hc]
    rfl
  · simp only [get_workspaces, srvGetWorkspaces, workspaceNames, hc]
    rfl

/-- C9 witness: the empty catalog listed as JSON gives `{"workspaces": ""}`
and as XML gives `<workspaces/>`. -/
theorem empty_collection_rendering_witness :
    get_workspaces { workspaces := [] } .json
      = .ok (.mapping (.obj [("workspaces", .str "")])) ∧
    get_workspaces { workspaces := [] } .xml = .ok (.text "<workspaces/>") :=
  ⟨(empty_collection_rendering "workspaces" "workspace" { workspaces := [] }
      rfl).2.2.1,
   (empty_collection_rendering "workspaces" "workspace" { workspaces := [] }
      rfl).2.2.2⟩

/-- C10: uploading to a store that already exists succeeds with `"Created"`
and overwrites the existing store in place (same store count, new content)
rather than failing with a duplicate error, for data stores and coverage
stores alike; and when the `store` parameter is omitted the store name
defaults to the uploaded file's base name. -/
theorem upload_overwrite_and_default_store (c : Catalog)
    (ws file content store : String) (w : Workspace) (s0 s1 : Store)
    (hw : findWorkspace c ws = some w) :
    (upload_data_store c ws file content none
      = upload_data_store c ws file content (some (fileStem file))) ∧
    (upload_coverage_store c ws file content none
      = upload_coverage_store c ws file content (some (fileStem file))) ∧
    fileStem "../tests/data/states.shp" = "states" ∧
    (lookupStore w.dataStores store = some s0 →
      (upload_data_store c ws file content (some store)).2 = .ok "Created" ∧
      ∃ w', findWorkspace (upload_data_store c ws file content (some store)).1 ws
          = some w' ∧
        lookupStore w'.dataStores store
          = some { name := store, content := content } ∧
        w'.dataStores.length = w.dataStores.length) ∧
    (lookupStore w.coverageStores store = some s1 →
      (upload_coverage_store c ws file content (some store)).2 = .ok "Created" ∧
      ∃ w', findWorkspace (upload_coverage_store c ws file content (some store)).1 ws
          = some w' ∧
        lookupStore w'.coverageStores store
          = some { name := store, content := content } ∧
        w'.coverageStores.length = w.coverageStores.length) := by
  have hname : w.name = ws := lookupWorkspace_name c.workspaces ws w hw
  refine ⟨rfl, rfl, by decide, ?_, ?_⟩
  · intro hs
    refine ⟨?_, ?_⟩
    · simp only [upload_data_store, srvUploadDataStore, hw]
      rfl
    · refine ⟨{ w with dataStores := upsertStore store content w.dataStores },
        ?_, ?_, ?_⟩
      · simp only [upload_data_store, srvUploadDataStore, hw]
        exact lookupWorkspace_set c.workspaces ws w _ hw hname
      · exact lookupStore_upsert store content w.dataStores
      · exact upsertStore_length store content w.dataStores s0 hs
  · intro hs
    refine ⟨?_, ?_⟩
    · simp only [upload_coverage_store, srvUploadCoverageStore, hw]
      rfl
    · refine ⟨{ w with coverageStores := upsertStore store content w.coverageStores },
        ?_, ?_, ?_⟩
      · simp only [upload_coverage_store, srvUploadCoverageStore, hw]
        exact lookupWorkspace_set c.workspaces ws w _ hw hname
      · exact lookupStore_upsert store content w.coverageStores
      · exact upsertStore_length store content w.coverageStores s1 hs

/-- C10 witness: on the concrete catalog, re-uploading the existing `states`
data store and the existing `raster1` coverage store both succeed with
`"Created"`, and the omitted-store call equals the call naming the file's
base name. -/
theorem upload_overwrite_and_default_store_witness :
    (upload_data_store demoCatalog "demo" "../tests/data/states.shp" "states-v2"
      (some "states")).2 = .ok "Created" ∧
    (upload_coverage_store demoCatalog "demo" "raster1.tif" "raster1-v2"
      (some "raster1")).2 = .ok "Created" ∧
    upload_data_store demoCatalog "demo" "../tests/data/states.shp" "states-v2" none
      = upload_data_store demoCatalog "demo" "../tests/data/states.shp" "states-v2"
          (some "states") :=
  ⟨((upload_overwrite_and_default_store demoCatalog "demo"
      "../tests/data/states.shp" "states-v2" "states"
      demoWorkspace demoStates demoRaster rfl).2.2.2.1 rfl).1,
   ((upload_overwrite_and_default_store demoCatalog "demo"
      "raster1.tif" "raster1-v2" "raster1"
      demoWorkspace demoStates demoRaster rfl).2.2.2.2 rfl).1,
   (upload_overwrite_and_default_store demoCatalog "demo"
      "../tests/data/states.shp" "states-v2" "states"
      demoWorkspace demoStates demoRaster rfl).1⟩

end GeoServerPy
